import Mathlib

/-!
# Employee-Attendance-Management: shallow embedding and verification

This file embeds the data model, trigger functions and row-level-security
gated store operations of the Employee Attendance Management application
(SQL migrations plus the React pages performing CRUD against the store)
and proves the specification claims about them.

Conventions of the embedding:
* timestamps (`TIMESTAMPTZ`) are integers counting seconds since an epoch;
  the wall-clock time-of-day of an instant is its residue modulo 86400;
* calendar dates (`DATE`) are day ordinals (`Nat`);
* user ids (`UUID` from `auth.users`) are `Nat`;
* `NULL`-able columns are `Option`; fractional hours are rationals;
* each relation is a list of rows; a store operation returns
  `Except String` (an error leaves the relation unchanged);
* row-level security follows the policy predicates of the migrations:
  an operation whose policy predicate evaluates false is rejected and
  causes no state change (the spec's failure semantics for the store).
-/

namespace AttendanceApp

/-- The `app_role` enum of the second schema (`user_roles.role`). -/
inductive app_role where
  | admin | manager | employee
deriving DecidableEq, Repr

/-- The `user_role` enum of the first schema (`profiles.role`): only
`employee` and `manager` are valid values. -/
inductive user_role where
  | employee | manager
deriving DecidableEq, Repr

/-- The `attendance_status` enum: `present`, `absent`, `late`, `half-day`. -/
inductive attendance_status where
  | present | absent | late | half_day
deriving DecidableEq, Repr

/-- The `invitations.status` values allowed by the CHECK constraint. -/
inductive invitation_status where
  | pending | accepted | expired
deriving DecidableEq, Repr

/-- A row of `public.profiles`. -/
structure Profile where
  id : Nat
  name : String
  email : String
  employee_id : String
  department : String
  role : user_role
deriving DecidableEq, Repr

/-- A row of `public.user_roles` (the `(user_id, role)` pair; the surrogate
key and `created_at` carry no behaviour). -/
structure UserRoleRow where
  user_id : Nat
  role : app_role
deriving DecidableEq, Repr

/-- A row of `public.attendance`. -/
structure AttendanceRecord where
  id : Nat
  user_id : Nat
  date : Nat
  check_in_time : Option Int
  check_out_time : Option Int
  status : attendance_status
  total_hours : Option ℚ
  notes : Option String
  modified_by : Option Nat
  modified_at : Option Int
  original_status : Option attendance_status
  modification_reason : Option String
  updated_at : Int
deriving DecidableEq, Repr

/-- A row of `public.invitations`. -/
structure Invitation where
  email : String
  name : String
  department : String
  role : app_role
  invited_by : Nat
  token : String
  status : invitation_status
  expires_at : Int
deriving DecidableEq, Repr

/-- The value of the singleton `late_threshold` row of `public.settings`
(JSON `{"hours": h, "minutes": m}`). -/
structure LateThresholdSetting where
  hours : Nat
  minutes : Nat
deriving DecidableEq, Repr

/-- `public.has_role(_user_id, _role)`: true iff a `user_roles` row exists
for the pair. -/
def has_role (roles : List UserRoleRow) (uid : Nat) (r : app_role) : Bool :=
  roles.any fun row => decide (row.user_id = uid ∧ row.role = r)

/-- Wall-clock time-of-day (seconds since midnight) of an instant:
the `::TIME` cast applied to the check-in timestamp. -/
def timeOfDay (t : Int) : Int := t % 86400

/-- `public.is_late_check_in(check_in_time)`: reads the `late_threshold`
setting (defaulting to 9:15 when the row is absent), builds the threshold
time-of-day with `make_time(h, m, 0)`, and compares the check-in's
time-of-day strictly against it. -/
def is_late_check_in (setting : Option LateThresholdSetting)
    (check_in_time : Int) : Bool :=
  let lh : Nat := match setting with | some s => s.hours | none => 9
  let lm : Nat := match setting with | some s => s.minutes | none => 15
  let threshold_time : Int := (lh : Int) * 3600 + (lm : Int) * 60
  let check_in_time_only : Int := timeOfDay check_in_time
  check_in_time_only > threshold_time

/-- The `calculate_total_hours` trigger function (BEFORE INSERT OR UPDATE
on `attendance`): when both timestamps are present, sets `total_hours` to
the epoch-seconds difference divided by 3600; otherwise returns the row
unchanged. -/
def calculate_total_hours (r : AttendanceRecord) : AttendanceRecord :=
  match r.check_in_time, r.check_out_time with
  | some tin, some tout =>
      { r with total_hours := some ((((tout - tin : Int) : ℚ)) / 3600) }
  | _, _ => r

/-- The `update_updated_at_column` trigger function (BEFORE UPDATE):
stamps `updated_at` with the current instant. -/
def update_updated_at_column (now : Int) (r : AttendanceRecord) :
    AttendanceRecord :=
  { r with updated_at := now }

/-- The BEFORE UPDATE trigger pipeline on `attendance`:
`calculate_attendance_hours` then `update_attendance_updated_at`
(alphabetical firing order). -/
def attendanceBeforeUpdate (now : Int) (r : AttendanceRecord) :
    AttendanceRecord :=
  update_updated_at_column now (calculate_total_hours r)

/-- Does the attendance ledger already hold a row for `(uid, date)`?
(the `UNIQUE(user_id, date)` constraint's conflict test). -/
def hasRecordFor (db : List AttendanceRecord) (uid date : Nat) : Bool :=
  db.any fun q => decide (q.user_id = uid ∧ q.date = date)

/-- Insert into `public.attendance`: the BEFORE INSERT trigger
`calculate_attendance_hours` runs on the new row, and the
`UNIQUE(user_id, date)` constraint rejects a duplicate `(user, date)`. -/
def insertAttendance (db : List AttendanceRecord) (r : AttendanceRecord) :
    Except String (List AttendanceRecord) :=
  if hasRecordFor db r.user_id r.date then
    .error "duplicate key value violates unique constraint"
  else
    .ok (db ++ [calculate_total_hours r])

/-- The ledger after an attempted insert: an error leaves it unchanged. -/
def insertAttendanceState (db : List AttendanceRecord)
    (r : AttendanceRecord) : List AttendanceRecord :=
  match insertAttendance db r with
  | .ok db' => db'
  | .error _ => db

/-- `handleCheckIn` (Dashboard): evaluates `is_late_check_in` on the current
instant and inserts a row for `(user, today)` with the check-in timestamp and
status `late`/`present` accordingly; check-out and hours are unset. -/
def handleCheckIn (setting : Option LateThresholdSetting)
    (db : List AttendanceRecord) (newId uid today : Nat) (now : Int) :
    Except String (List AttendanceRecord) :=
  insertAttendance db
    { id := newId
      user_id := uid
      date := today
      check_in_time := some now
      check_out_time := none
      status := if is_late_check_in setting now then .late else .present
      total_hours := none
      notes := none
      modified_by := none
      modified_at := none
      original_status := none
      modification_reason := none
      updated_at := now }

/-- The ledger after an attempted check-in: an error leaves it unchanged. -/
def handleCheckInState (setting : Option LateThresholdSetting)
    (db : List AttendanceRecord) (newId uid today : Nat) (now : Int) :
    List AttendanceRecord :=
  match handleCheckIn setting db newId uid today now with
  | .ok db' => db'
  | .error _ => db

/-- `handleCheckOut` (Dashboard): updates the row matched by id, setting only
`check_out_time`; the BEFORE UPDATE triggers derive `total_hours` and stamp
`updated_at`. -/
def handleCheckOut (db : List AttendanceRecord) (recId : Nat) (now : Int) :
    List AttendanceRecord :=
  db.map fun r =>
    if r.id = recId then
      attendanceBeforeUpdate now { r with check_out_time := some now }
    else r

/-- Policy predicate of "Only managers can insert roles"
(INSERT on `user_roles`, WITH CHECK). -/
def canInsertUserRole (roles : List UserRoleRow) (actor : Nat) : Bool :=
  has_role roles actor .manager || has_role roles actor .admin

/-- Insert into `public.user_roles` as `actor`: rejected when the RLS
WITH CHECK predicate is false for the actor, or when the
`UNIQUE (user_id, role)` constraint is violated. -/
def insertUserRole (roles : List UserRoleRow) (actor : Nat)
    (row : UserRoleRow) : Except String (List UserRoleRow) :=
  if !canInsertUserRole roles actor then
    .error "new row violates row-level security policy"
  else if roles.any fun q => decide (q.user_id = row.user_id ∧ q.role = row.role) then
    .error "duplicate key value violates unique constraint"
  else
    .ok (roles ++ [row])

/-- The role relation after an attempted insert: an error leaves it
unchanged. -/
def insertUserRoleState (roles : List UserRoleRow) (actor : Nat)
    (row : UserRoleRow) : List UserRoleRow :=
  match insertUserRole roles actor row with
  | .ok roles' => roles'
  | .error _ => roles

/-- Policy predicate of "Managers can delete attendance"
(DELETE on `attendance`, USING). -/
def canDeleteAttendance (roles : List UserRoleRow) (actor : Nat) : Bool :=
  has_role roles actor .manager || has_role roles actor .admin

/-- Delete an attendance row by id as `actor`: the policy predicate of
"Managers can delete attendance" gates the operation; when it is false the
store rejects the delete and the ledger is untouched. -/
def deleteAttendance (roles : List UserRoleRow) (actor : Nat)
    (db : List AttendanceRecord) (recId : Nat) :
    Except String (List AttendanceRecord) :=
  if canDeleteAttendance roles actor then
    .ok (db.filter fun r => decide (r.id ≠ recId))
  else
    .error "permission denied"

/-- The ledger after an attempted delete: an error leaves it unchanged. -/
def deleteAttendanceState (roles : List UserRoleRow) (actor : Nat)
    (db : List AttendanceRecord) (recId : Nat) : List AttendanceRecord :=
  match deleteAttendance roles actor db recId with
  | .ok db' => db'
  | .error _ => db

/-- Policy predicate of "Managers can update invitations"
(UPDATE on `invitations`, USING). -/
def canUpdateInvitations (roles : List UserRoleRow) (actor : Nat) : Bool :=
  has_role roles actor .manager || has_role roles actor .admin

/-- The client's `update({status: "accepted"}).eq("token", token)` on
`invitations`, RLS-gated on the "Managers can update invitations" policy:
when the acting identity fails the predicate, the store rejects the update
and no row changes. -/
def updateInvitationAccepted (roles : List UserRoleRow) (actor : Nat)
    (invs : List Invitation) (token : String) :
    Except String (List Invitation) :=
  if canUpdateInvitations roles actor then
    .ok (invs.map fun i =>
      if i.token = token then { i with status := .accepted } else i)
  else
    .error "permission denied"

/-- JavaScript's `String.prototype.trim` (what zod's `.trim()` applies):
strip leading and trailing whitespace. -/
def jsTrim (s : String) : String :=
  ⟨((s.data.dropWhile Char.isWhitespace).reverse.dropWhile
      Char.isWhitespace).reverse⟩

/-- The data the `editSchema` zod parse yields: the chosen status together
with the trimmed reason text. -/
structure EditInput where
  status : attendance_status
  reason : String
deriving DecidableEq, Repr

/-- `editSchema.parse` of EditAttendanceDialog: status must be one of the
four enum values (guaranteed by the type here), and the reason is trimmed
and must have between 3 and 500 characters after trimming. -/
def editSchemaParse (status : attendance_status) (reason : String) :
    Option EditInput :=
  let t := jsTrim reason
  if 3 ≤ t.length ∧ t.length ≤ 500 then some ⟨status, t⟩ else none

/-- `EditAttendanceDialog.handleSubmit`: validates the input, then updates
the record setting the new status, the modifier's identity and instant, the
reason, and `original_status` to the record's current status exactly when
the new status differs (null otherwise); the BEFORE UPDATE triggers run on
the stored row. A validation failure is rejected before reaching storage. -/
def editAttendanceSubmit (rec : AttendanceRecord) (actor : Nat) (now : Int)
    (status : attendance_status) (reason : String) :
    Except String AttendanceRecord :=
  match editSchemaParse status reason with
  | none => .error "Reason must be at least 3 characters"
  | some v =>
      .ok (attendanceBeforeUpdate now
        { rec with
            status := v.status
            modified_by := some actor
            modified_at := some now
            original_status :=
              if rec.status ≠ v.status then some rec.status else none
            modification_reason := some v.reason })

/-- Postgres `LPAD(s, n, fill)`: pad on the left up to length `n`; a string
already longer than `n` is truncated on the right to its first `n`
characters. -/
def lpad (s : String) (n : Nat) (fill : Char) : String :=
  if n ≤ s.length then s.take n
  else String.mk (List.replicate (n - s.length) fill) ++ s

/-- Postgres enum input conversion for `user_role`. -/
def castUserRole (s : String) : Option user_role :=
  if s = "employee" then some .employee
  else if s = "manager" then some .manager
  else none

/-- Postgres enum input conversion for `app_role`. -/
def castAppRole (s : String) : Option app_role :=
  if s = "admin" then some .admin
  else if s = "manager" then some .manager
  else if s = "employee" then some .employee
  else none

/-- The `raw_user_meta_data` fields the signup flow passes. -/
structure SignupMeta where
  name : Option String
  department : Option String
  role : Option String
deriving DecidableEq, Repr

/-- The freshly inserted `auth.users` row the trigger sees. -/
structure NewUser where
  id : Nat
  email : String
  raw_user_meta_data : SignupMeta
deriving DecidableEq, Repr

/-- Result state of the `handle_new_user` trigger. -/
structure HandleNewUserResult where
  profiles : List Profile
  user_roles : List UserRoleRow
  employee_id_seq : Nat
deriving DecidableEq, Repr

/-- The `handle_new_user` trigger function (latest `CREATE OR REPLACE`):
inserts a profile with name/department defaulted to 'New User'/'General',
`employee_id` = 'EMP' || LPAD(nextval(seq), 4, '0'), profile role from the
metadata via the `user_role` enum cast (NULL coalesces to 'employee'; an
invalid value raises), and inserts a `user_roles` grant from the metadata
via the `app_role` cast likewise. `seq` is the value `nextval` yields. -/
def handle_new_user (profiles : List Profile) (user_roles : List UserRoleRow)
    (seq : Nat) (nu : NewUser) : Except String HandleNewUserResult :=
  let profRole : Except String user_role :=
    match nu.raw_user_meta_data.role with
    | none => .ok .employee
    | some s =>
        match castUserRole s with
        | some rr => .ok rr
        | none => .error "invalid input value for enum user_role"
  match profRole with
  | .error e => .error e
  | .ok rr =>
      let grantRole : Except String app_role :=
        match nu.raw_user_meta_data.role with
        | none => .ok .employee
        | some s =>
            match castAppRole s with
            | some ar => .ok ar
            | none => .error "invalid input value for enum app_role"
      match grantRole with
      | .error e => .error e
      | .ok ar =>
          .ok
            { profiles := profiles ++
                [{ id := nu.id
                   name := nu.raw_user_meta_data.name.getD "New User"
                   email := nu.email
                   employee_id := "EMP" ++ lpad (toString seq) 4 '0'
                   department := nu.raw_user_meta_data.department.getD "General"
                   role := rr }]
              user_roles := user_roles ++ [{ user_id := nu.id, role := ar }]
              employee_id_seq := seq + 1 }

/-- The invitation fields the Auth page keeps as `invitationData`. -/
structure InvitationData where
  email : String
  name : String
  department : String
  role : String
  token : String
deriving DecidableEq, Repr

/-- Render an `app_role` the way PostgREST serialises the enum column. -/
def app_role.asText : app_role → String
  | .admin => "admin"
  | .manager => "manager"
  | .employee => "employee"

/-- `loadInvitation` (Auth page): selects the invitation matching the token
with status `pending` (`maybeSingle`); a missing row yields no prefill, and
a found row whose `expires_at` is strictly before the current instant is
rejected as expired, also yielding no prefill. -/
def loadInvitation (invs : List Invitation) (token : String) (now : Int) :
    Option InvitationData :=
  match invs.find? (fun i => decide (i.token = token ∧ i.status = .pending)) with
  | none => none
  | some d =>
      if d.expires_at < now then none
      else some ⟨d.email, d.name, d.department, d.role.asText, d.token⟩

/-- The self-declared signup form fields. -/
structure SignupForm where
  name : String
  email : String
  department : String
  role : String
deriving DecidableEq, Repr

/-- The field selection of `handleSignUp`: every field prefers the
invitation prefill and falls back to the submitted form value. -/
def signupFields (invD : Option InvitationData) (form : SignupForm) :
    SignupForm :=
  match invD with
  | some i => ⟨i.name, i.email, i.department, i.role⟩
  | none => form

/-- Final state of the invitation-bound signup flow. -/
structure AcceptFlowResult where
  profiles : List Profile
  user_roles : List UserRoleRow
  invitations : List Invitation
  employee_id_seq : Nat
  signUpFailed : Bool
deriving DecidableEq, Repr

/-- The invitation branch of `handleSignUp`: `supabase.auth.signUp` with
the invitation's fields as metadata fires the `handle_new_user` trigger
(a trigger error fails the signup and the flow stops); then, acting as the
freshly registered user, the client updates the invitation's status to
`accepted` by token and inserts a `user_roles` row for the invitation's
role — both awaited without error handling, so a store rejection is
silently dropped and the flow continues. -/
def handleSignUpWithInvitation (profiles : List Profile)
    (user_roles : List UserRoleRow) (invitations : List Invitation)
    (seq : Nat) (newUserId : Nat) (invD : InvitationData) : AcceptFlowResult :=
  match handle_new_user profiles user_roles seq
      ⟨newUserId, invD.email,
        ⟨some invD.name, some invD.department, some invD.role⟩⟩ with
  | .error _ => ⟨profiles, user_roles, invitations, seq, true⟩
  | .ok res =>
      let invitations' :=
        match updateInvitationAccepted res.user_roles newUserId
            invitations invD.token with
        | .ok I => I
        | .error _ => invitations
      let user_roles' :=
        match castAppRole invD.role with
        | none => res.user_roles
        | some ar =>
            match insertUserRole res.user_roles newUserId
                ⟨newUserId, ar⟩ with
            | .ok R => R
            | .error _ => res.user_roles
      ⟨res.profiles, user_roles', invitations', res.employee_id_seq, false⟩

/-- The spec's wording of the employee-code ordinal, for refinement
comparison with the code's `LPAD`: the decimal digits of the ordinal,
left-padded with zeros to width 4 and never truncated
("a zero-padded sequential ordinal"). -/
def specZeroPaddedOrdinal (n : Nat) : String :=
  let s := toString n
  if 4 ≤ s.length then s
  else String.mk (List.replicate (4 - s.length) '0') ++ s

/-- The employee codes a `handle_new_user` outcome assigned (empty on a
trigger error). -/
def employeeIdsOf (e : Except String HandleNewUserResult) : List String :=
  match e with
  | .ok res => res.profiles.map Profile.employee_id
  | .error _ => []

/- Projection lemmas for the trigger pipeline. -/

theorem calculate_total_hours_status (r : AttendanceRecord) :
    (calculate_total_hours r).status = r.status := by
  cases hin : r.check_in_time <;> cases hout : r.check_out_time <;>
    simp [calculate_total_hours, hin, hout]

theorem calculate_total_hours_check_in (r : AttendanceRecord) :
    (calculate_total_hours r).check_in_time = r.check_in_time := by
  cases hin : r.check_in_time <;> cases hout : r.check_out_time <;>
    simp [calculate_total_hours, hin, hout]

theorem calculate_total_hours_check_out (r : AttendanceRecord) :
    (calculate_total_hours r).check_out_time = r.check_out_time := by
  cases hin : r.check_in_time <;> cases hout : r.check_out_time <;>
    simp [calculate_total_hours, hin, hout]

theorem calculate_total_hours_original_status (r : AttendanceRecord) :
    (calculate_total_hours r).original_status = r.original_status := by
  cases hin : r.check_in_time <;> cases hout : r.check_out_time <;>
    simp [calculate_total_hours, hin, hout]

theorem calculate_total_hours_modified_by (r : AttendanceRecord) :
    (calculate_total_hours r).modified_by = r.modified_by := by
  cases hin : r.check_in_time <;> cases hout : r.check_out_time <;>
    simp [calculate_total_hours, hin, hout]

theorem calculate_total_hours_modified_at (r : AttendanceRecord) :
    (calculate_total_hours r).modified_at = r.modified_at := by
  cases hin : r.check_in_time <;> cases hout : r.check_out_time <;>
    simp [calculate_total_hours, hin, hout]

theorem calculate_total_hours_modification_reason (r : AttendanceRecord) :
    (calculate_total_hours r).modification_reason = r.modification_reason := by
  cases hin : r.check_in_time <;> cases hout : r.check_out_time <;>
    simp [calculate_total_hours, hin, hout]

theorem attendanceBeforeUpdate_status (now : Int) (r : AttendanceRecord) :
    (attendanceBeforeUpdate now r).status = r.status := by
  simp [attendanceBeforeUpdate, update_updated_at_column,
    calculate_total_hours_status]

theorem attendanceBeforeUpdate_check_out (now : Int) (r : AttendanceRecord) :
    (attendanceBeforeUpdate now r).check_out_time = r.check_out_time := by
  simp [attendanceBeforeUpdate, update_updated_at_column,
    calculate_total_hours_check_out]

theorem attendanceBeforeUpdate_check_in (now : Int) (r : AttendanceRecord) :
    (attendanceBeforeUpdate now r).check_in_time = r.check_in_time := by
  simp [attendanceBeforeUpdate, update_updated_at_column,
    calculate_total_hours_check_in]

theorem attendanceBeforeUpdate_original_status (now : Int)
    (r : AttendanceRecord) :
    (attendanceBeforeUpdate now r).original_status = r.original_status := by
  simp [attendanceBeforeUpdate, update_updated_at_column,
    calculate_total_hours_original_status]

theorem attendanceBeforeUpdate_modified_by (now : Int) (r : AttendanceRecord) :
    (attendanceBeforeUpdate now r).modified_by = r.modified_by := by
  simp [attendanceBeforeUpdate, update_updated_at_column,
    calculate_total_hours_modified_by]

theorem attendanceBeforeUpdate_modified_at (now : Int) (r : AttendanceRecord) :
    (attendanceBeforeUpdate now r).modified_at = r.modified_at := by
  simp [attendanceBeforeUpdate, update_updated_at_column,
    calculate_total_hours_modified_at]

theorem attendanceBeforeUpdate_modification_reason (now : Int)
    (r : AttendanceRecord) :
    (attendanceBeforeUpdate now r).modification_reason
      = r.modification_reason := by
  simp [attendanceBeforeUpdate, update_updated_at_column,
    calculate_total_hours_modification_reason]

/-- C1: for every check-in instant, `is_late_check_in` is true iff the
wall-clock time-of-day of the instant is strictly greater than the
configured threshold; when the setting row is absent the threshold defaults
to 9:15; and a check-in whose time-of-day is exactly the threshold (on any
day) is not late. -/
theorem checkin_late_iff_strictly_after_threshold
    (s : LateThresholdSetting) (t : Int)
    (hh : s.hours ≤ 23) (hm : s.minutes ≤ 59) :
    (is_late_check_in (some s) t = true ↔
        timeOfDay t > (s.hours : Int) * 3600 + (s.minutes : Int) * 60)
    ∧ (is_late_check_in none t = true ↔
        timeOfDay t > 9 * 3600 + 15 * 60)
    ∧ (∀ d : Int,
        is_late_check_in (some s)
          (d * 86400 + ((s.hours : Int) * 3600 + (s.minutes : Int) * 60))
          = false) := by
  refine ⟨?_, ?_, ?_⟩
  · simp [is_late_check_in]
  · simp [is_late_check_in]
  · intro d
    simp only [is_late_check_in, timeOfDay, decide_eq_false_iff_not, gt_iff_lt,
      not_lt]
    omega

/-- Witness for C1 at the seeded threshold 9:15: a check-in at exactly
09:15:00 (time-of-day 33300 s) is not late. -/
theorem checkin_late_witness :
    is_late_check_in (some ⟨9, 15⟩) 33300 = false := by
  have h := (checkin_late_iff_strictly_after_threshold ⟨9, 15⟩ 33300
    (by decide) (by decide)).2.2 0
  simpa using h

/-- C3: `calculate_total_hours` sets total hours to
(check-out − check-in) / 3600, fractionally, exactly when both timestamps
are present; when check-out (or check-in) is absent the field is left as it
was, so an unset field stays unset rather than becoming zero. -/
theorem total_hours_iff_both_timestamps (r : AttendanceRecord) :
    (∀ tin tout, r.check_in_time = some tin → r.check_out_time = some tout →
        (calculate_total_hours r).total_hours
          = some (((tout - tin : Int) : ℚ) / 3600))
    ∧ (r.check_out_time = none →
        (calculate_total_hours r).total_hours = r.total_hours)
    ∧ (r.check_in_time = none →
        (calculate_total_hours r).total_hours = r.total_hours)
    ∧ (r.check_out_time = none → r.total_hours = none →
        (calculate_total_hours r).total_hours = none) := by
  refine ⟨?_, ?_, ?_, ?_⟩
  · intro tin tout hin hout
    simp [calculate_total_hours, hin, hout]
  · intro hout
    cases hin : r.check_in_time <;> simp [calculate_total_hours, hin, hout]
  · intro hin
    cases hout : r.check_out_time <;> simp [calculate_total_hours, hin, hout]
  · intro hout htot
    cases hin : r.check_in_time <;>
      simp [calculate_total_hours, hin, hout, htot]

/-- Witness for C3 at the spec's scenario: check-in 09:20:00, check-out
17:20:00 on the same day yields exactly 8 hours. -/
theorem total_hours_witness :
    (calculate_total_hours
      { id := 1, user_id := 1, date := 1, check_in_time := some 33600,
        check_out_time := some 62400, status := .late, total_hours := none,
        notes := none, modified_by := none, modified_at := none,
        original_status := none, modification_reason := none,
        updated_at := 0 }).total_hours = some (8 : ℚ) := by
  have h := (total_hours_iff_both_timestamps
      { id := 1, user_id := 1, date := 1, check_in_time := some 33600,
        check_out_time := some 62400, status := .late, total_hours := none,
        notes := none, modified_by := none, modified_at := none,
        original_status := none, modification_reason := none,
        updated_at := 0 }).1 33600 62400 rfl rfl
  rw [h]
  norm_num

/-- C4: a check-in for a (user, date) that already has a record is rejected
by the uniqueness constraint; the ledger is unchanged and the original
record still sits in it, with no field modified. -/
theorem second_checkin_rejected (setting : Option LateThresholdSetting)
    (db : List AttendanceRecord) (newId uid today : Nat) (now : Int)
    (r0 : AttendanceRecord) (h0 : r0 ∈ db)
    (hu : r0.user_id = uid) (hd : r0.date = today) :
    handleCheckIn setting db newId uid today now
      = .error "duplicate key value violates unique constraint"
    ∧ handleCheckInState setting db newId uid today now = db
    ∧ r0 ∈ handleCheckInState setting db newId uid today now := by
  have hdup : hasRecordFor db uid today = true :=
    List.any_eq_true.mpr ⟨r0, h0, by simp [hu, hd]⟩
  have herr : handleCheckIn setting db newId uid today now
      = .error "duplicate key value violates unique constraint" := by
    simp [handleCheckIn, insertAttendance, hdup]
  refine ⟨herr, ?_, ?_⟩ <;> simp [handleCheckInState, herr, h0]

/-- Witness for C4: with a record for user 5 on day 3 already present, a
second check-in for (5, 3) is rejected. -/
theorem second_checkin_rejected_witness :
    handleCheckIn none
      [{ id := 1, user_id := 5, date := 3, check_in_time := some 33000,
         check_out_time := none, status := .present, total_hours := none,
         notes := none, modified_by := none, modified_at := none,
         original_status := none, modification_reason := none,
         updated_at := 0 }] 9 5 3 120000
      = .error "duplicate key value violates unique constraint" :=
  (second_checkin_rejected none
      [{ id := 1, user_id := 5, date := 3, check_in_time := some 33000,
         check_out_time := none, status := .present, total_hours := none,
         notes := none, modified_by := none, modified_at := none,
         original_status := none, modification_reason := none,
         updated_at := 0 }] 9 5 3 120000
      { id := 1, user_id := 5, date := 3, check_in_time := some 33000,
        check_out_time := none, status := .present, total_hours := none,
        notes := none, modified_by := none, modified_at := none,
        original_status := none, modification_reason := none,
        updated_at := 0 }
      (by simp) rfl rfl).1

/-- C9: checking out maps every record's status to itself (no status
recomputation, whatever the instant), and the targeted record appears in
the new ledger with its check-out timestamp set, its check-in unchanged,
and — when a check-in is present — its total hours derived. -/
theorem checkout_sets_checkout_and_keeps_status
    (db : List AttendanceRecord) (recId : Nat) (now : Int) :
    ((handleCheckOut db recId now).map AttendanceRecord.status
        = db.map AttendanceRecord.status)
    ∧ ∀ r ∈ db, r.id = recId →
        attendanceBeforeUpdate now { r with check_out_time := some now }
            ∈ handleCheckOut db recId now
        ∧ (attendanceBeforeUpdate now
            { r with check_out_time := some now }).status = r.status
        ∧ (attendanceBeforeUpdate now
            { r with check_out_time := some now }).check_out_time = some now
        ∧ (attendanceBeforeUpdate now
            { r with check_out_time := some now }).check_in_time
            = r.check_in_time
        ∧ ∀ tin, r.check_in_time = some tin →
            (attendanceBeforeUpdate now
              { r with check_out_time := some now }).total_hours
              = some (((now - tin : Int) : ℚ) / 3600) := by
  constructor
  · induction db with
    | nil => rfl
    | cons a tl ih =>
        simp only [handleCheckOut, List.map_cons] at ih ⊢
        by_cases h : a.id = recId <;>
          simp [h, attendanceBeforeUpdate_status, ih]
  · intro r hr hid
    have hmem : (if r.id = recId then
          attendanceBeforeUpdate now { r with check_out_time := some now }
        else r) ∈ handleCheckOut db recId now :=
      List.mem_map_of_mem _ hr
    rw [if_pos hid] at hmem
    refine ⟨hmem, attendanceBeforeUpdate_status _ _, ?_, ?_, ?_⟩
    · rw [attendanceBeforeUpdate_check_out]
    · rw [attendanceBeforeUpdate_check_in]
    · intro tin htin
      simp [attendanceBeforeUpdate, update_updated_at_column,
        calculate_total_hours, htin]

/-- Witness for C9: checking out a checked-in record at 17:20 leaves the
status `present` and derives 8 hours from the 09:20 check-in. -/
theorem checkout_keeps_status_witness :
    ((handleCheckOut
        [{ id := 4, user_id := 5, date := 3, check_in_time := some 33600,
           check_out_time := none, status := .present, total_hours := none,
           notes := none, modified_by := none, modified_at := none,
           original_status := none, modification_reason := none,
           updated_at := 0 }] 4 62400).map AttendanceRecord.status
      = [attendance_status.present])
    ∧ (attendanceBeforeUpdate 62400
        { id := 4, user_id := 5, date := 3, check_in_time := some 33600,
          check_out_time := some 62400, status := .present,
          total_hours := none, notes := none, modified_by := none,
          modified_at := none, original_status := none,
          modification_reason := none,
          updated_at := 0 }).total_hours = some ((62400 - 33600 : ℚ) / 3600) := by
  have h := checkout_sets_checkout_and_keeps_status
      [{ id := 4, user_id := 5, date := 3, check_in_time := some 33600,
         check_out_time := none, status := .present, total_hours := none,
         notes := none, modified_by := none, modified_at := none,
         original_status := none, modification_reason := none,
         updated_at := 0 }] 4 62400
  refine ⟨h.1, ?_⟩
  have h2 := (h.2
      { id := 4, user_id := 5, date := 3, check_in_time := some 33600,
        check_out_time := none, status := .present, total_hours := none,
        notes := none, modified_by := none, modified_at := none,
        original_status := none, modification_reason := none,
        updated_at := 0 } (by simp) rfl).2.2.2.2 33600 rfl
  rw [h2]
  norm_num

/-- C5: a privileged edit with a valid reason stores the new status,
captures the prior status into `original_status` exactly when the new
status differs (null otherwise), and records the modifier's identity,
the modification instant and the trimmed reason; a reason shorter than
3 characters after trimming is rejected before reaching storage. -/
theorem privileged_edit_sets_audit_fields (rec : AttendanceRecord)
    (actor : Nat) (now : Int) (status : attendance_status) (reason : String)
    (hlen : 3 ≤ (jsTrim reason).length) (hmax : (jsTrim reason).length ≤ 500) :
    (∃ r', editAttendanceSubmit rec actor now status reason = .ok r'
        ∧ r'.status = status
        ∧ r'.original_status
            = (if rec.status ≠ status then some rec.status else none)
        ∧ r'.modified_by = some actor
        ∧ r'.modified_at = some now
        ∧ r'.modification_reason = some (jsTrim reason))
    ∧ (∀ reason₂ : String, (jsTrim reason₂).length < 3 →
        editAttendanceSubmit rec actor now status reason₂
          = .error "Reason must be at least 3 characters") := by
  constructor
  · have hok : editAttendanceSubmit rec actor now status reason
        = .ok (attendanceBeforeUpdate now
            { rec with
                status := status
                modified_by := some actor
                modified_at := some now
                original_status :=
                  if rec.status ≠ status then some rec.status else none
                modification_reason := some (jsTrim reason) }) := by
      simp [editAttendanceSubmit, editSchemaParse, hlen, hmax]
    refine ⟨_, hok, ?_, ?_, ?_, ?_, ?_⟩
    · rw [attendanceBeforeUpdate_status]
    · rw [attendanceBeforeUpdate_original_status]
    · rw [attendanceBeforeUpdate_modified_by]
    · rw [attendanceBeforeUpdate_modified_at]
    · rw [attendanceBeforeUpdate_modification_reason]
  · intro reason₂ h2
    have hcond : ¬ (3 ≤ (jsTrim reason₂).length
        ∧ (jsTrim reason₂).length ≤ 500) := by omega
    simp [editAttendanceSubmit, editSchemaParse, hcond]

/-- Witness for C5: editing a `present` record to `absent` with reason
" sick " records original_status = present, the modifier and the trimmed
reason; and the too-short reason "hi" is rejected. -/
theorem privileged_edit_witness :
    (∃ r', editAttendanceSubmit
        { id := 2, user_id := 5, date := 3, check_in_time := some 33000,
          check_out_time := none, status := .present, total_hours := none,
          notes := none, modified_by := none, modified_at := none,
          original_status := none, modification_reason := none,
          updated_at := 0 } 7 100 .absent " sick " = .ok r'
      ∧ r'.status = .absent
      ∧ r'.original_status = some .present
      ∧ r'.modified_by = some 7
      ∧ r'.modification_reason = some "sick")
    ∧ editAttendanceSubmit
        { id := 2, user_id := 5, date := 3, check_in_time := some 33000,
          check_out_time := none, status := .present, total_hours := none,
          notes := none, modified_by := none, modified_at := none,
          original_status := none, modification_reason := none,
          updated_at := 0 } 7 100 .absent "hi"
      = .error "Reason must be at least 3 characters" := by
  obtain ⟨⟨r', h1, hs, ho, hb, _, hr⟩, hshort⟩ :=
    privileged_edit_sets_audit_fields
      { id := 2, user_id := 5, date := 3, check_in_time := some 33000,
        check_out_time := none, status := .present, total_hours := none,
        notes := none, modified_by := none, modified_at := none,
        original_status := none, modification_reason := none,
        updated_at := 0 } 7 100 .absent " sick " (by decide) (by decide)
  refine ⟨⟨r', h1, hs, ?_, hb, ?_⟩, hshort "hi" (by decide)⟩
  · rw [ho]; decide
  · rw [hr]; decide

/-- C10: a later privileged edit whose new status equals the record's
current status overwrites a previously captured `original_status` with
null, and unconditionally overwrites the modifier identity, modification
instant and reason of any earlier edit. -/
theorem same_status_edit_erases_original (rec : AttendanceRecord)
    (actor : Nat) (now : Int) (reason : String) (s0 : attendance_status)
    (horig : rec.original_status = some s0)
    (hlen : 3 ≤ (jsTrim reason).length) (hmax : (jsTrim reason).length ≤ 500) :
    ∃ r', editAttendanceSubmit rec actor now rec.status reason = .ok r'
      ∧ r'.status = rec.status
      ∧ r'.original_status = none
      ∧ r'.modified_by = some actor
      ∧ r'.modified_at = some now
      ∧ r'.modification_reason = some (jsTrim reason) := by
  have hok : editAttendanceSubmit rec actor now rec.status reason
      = .ok (attendanceBeforeUpdate now
          { rec with
              status := rec.status
              modified_by := some actor
              modified_at := some now
              original_status :=
                if rec.status ≠ rec.status then some rec.status else none
              modification_reason := some (jsTrim reason) }) := by
    simp [editAttendanceSubmit, editSchemaParse, hlen, hmax]
  refine ⟨_, hok, ?_, ?_, ?_, ?_, ?_⟩
  · rw [attendanceBeforeUpdate_status]
  · rw [attendanceBeforeUpdate_original_status]
    simp
  · rw [attendanceBeforeUpdate_modified_by]
  · rw [attendanceBeforeUpdate_modified_at]
  · rw [attendanceBeforeUpdate_modification_reason]

/-- Witness for C10: a record whose `original_status` is already `present`
(and carrying an earlier modifier, instant and reason), edited to its
current status `late`, ends with `original_status` null and the new
modifier, instant and reason. -/
theorem same_status_edit_witness :
    ∃ r', editAttendanceSubmit
        { id := 3, user_id := 5, date := 3, check_in_time := some 36000,
          check_out_time := none, status := .late, total_hours := none,
          notes := none, modified_by := some 6, modified_at := some 50,
          original_status := some .present,
          modification_reason := some "old reason",
          updated_at := 0 } 7 100 .late "verified late" = .ok r'
      ∧ r'.original_status = none
      ∧ r'.modified_by = some 7
      ∧ r'.modified_at = some 100
      ∧ r'.modification_reason = some "verified late" := by
  obtain ⟨r', h1, _, ho, hb, ha, hr⟩ :=
    same_status_edit_erases_original
      { id := 3, user_id := 5, date := 3, check_in_time := some 36000,
        check_out_time := none, status := .late, total_hours := none,
        notes := none, modified_by := some 6, modified_at := some 50,
        original_status := some .present,
        modification_reason := some "old reason",
        updated_at := 0 } 7 100 "verified late" .present rfl
      (by decide) (by decide)
  refine ⟨r', h1, ho, hb, ha, ?_⟩
  rw [hr]; decide

/-- C6: an identity holding neither manager nor admin cannot insert a
`user_roles` row nor delete an attendance record: both operations are
rejected by the RLS policy predicates with an authorization error, and
neither the role relation nor the attendance ledger changes. -/
theorem unprivileged_role_insert_and_delete_rejected
    (roles : List UserRoleRow) (actor : Nat)
    (db : List AttendanceRecord) (row : UserRoleRow) (recId : Nat)
    (hm : has_role roles actor .manager = false)
    (ha : has_role roles actor .admin = false) :
    insertUserRole roles actor row
        = .error "new row violates row-level security policy"
    ∧ insertUserRoleState roles actor row = roles
    ∧ deleteAttendance roles actor db recId = .error "permission denied"
    ∧ deleteAttendanceState roles actor db recId = db := by
  have hins : insertUserRole roles actor row
      = .error "new row violates row-level security policy" := by
    simp [insertUserRole, canInsertUserRole, hm, ha]
  have hdel : deleteAttendance roles actor db recId
      = .error "permission denied" := by
    simp [deleteAttendance, canDeleteAttendance, hm, ha]
  exact ⟨hins, by simp [insertUserRoleState, hins],
    hdel, by simp [deleteAttendanceState, hdel]⟩

/-- Witness for C6: user 2, holding only the employee role, can neither
grant a role nor delete the attendance record with id 1. -/
theorem unprivileged_rejected_witness :
    insertUserRole [⟨1, .manager⟩, ⟨2, .employee⟩] 2 ⟨2, .manager⟩
        = .error "new row violates row-level security policy"
    ∧ deleteAttendanceState [⟨1, .manager⟩, ⟨2, .employee⟩] 2
        [{ id := 1, user_id := 5, date := 3, check_in_time := some 33000,
           check_out_time := none, status := .present, total_hours := none,
           notes := none, modified_by := none, modified_at := none,
           original_status := none, modification_reason := none,
           updated_at := 0 }] 1
        = [{ id := 1, user_id := 5, date := 3, check_in_time := some 33000,
             check_out_time := none, status := .present, total_hours := none,
             notes := none, modified_by := none, modified_at := none,
             original_status := none, modification_reason := none,
             updated_at := 0 }] := by
  have h := unprivileged_role_insert_and_delete_rejected
      [⟨1, .manager⟩, ⟨2, .employee⟩] 2
      [{ id := 1, user_id := 5, date := 3, check_in_time := some 33000,
         check_out_time := none, status := .present, total_hours := none,
         notes := none, modified_by := none, modified_at := none,
         original_status := none, modification_reason := none,
         updated_at := 0 }] ⟨2, .manager⟩ 1 (by decide) (by decide)
  exact ⟨h.1, h.2.2.2⟩

/-- C7: an invitation whose expiry instant is strictly in the past is not
used by the registration-prefill lookup even when its stored status is
still `pending` (expiry is checked lazily at lookup time against the
current instant), and registration then falls back to the self-declared
form fields. -/
theorem expired_invitation_not_used (invs : List Invitation) (token : String)
    (now : Int) (i : Invitation) (hi : i ∈ invs) (htok : i.token = token)
    (huniq : ∀ j ∈ invs, j.token = token → j = i)
    (hexp : i.expires_at < now) :
    loadInvitation invs token now = none
    ∧ ∀ form : SignupForm,
        signupFields (loadInvitation invs token now) form = form := by
  have hnone : loadInvitation invs token now = none := by
    cases hf : invs.find?
        (fun j => decide (j.token = token ∧ j.status = .pending)) with
    | none => unfold loadInvitation; rw [hf]
    | some d =>
        have hd1 : d ∈ invs := List.mem_of_find?_eq_some hf
        have hd2 := List.find?_some hf
        rw [decide_eq_true_eq] at hd2
        have hdi : d = i := huniq d hd1 hd2.1
        subst hdi
        unfold loadInvitation
        rw [hf]
        simp [hexp]
  exact ⟨hnone, fun form => by simp [hnone, signupFields]⟩

/-- Witness for C7: a pending invitation that expired at instant 5 is not
used for prefill at instant 10, and the form's own fields are used. -/
theorem expired_invitation_witness :
    loadInvitation
        [⟨"e@x", "Eve", "Eng", .employee, 1, "tok", .pending, 5⟩] "tok" 10
      = none
    ∧ signupFields
        (loadInvitation
          [⟨"e@x", "Eve", "Eng", .employee, 1, "tok", .pending, 5⟩] "tok" 10)
        ⟨"Bob", "b@x", "Sales", "employee"⟩
      = ⟨"Bob", "b@x", "Sales", "employee"⟩ := by
  have h := expired_invitation_not_used
      [⟨"e@x", "Eve", "Eng", .employee, 1, "tok", .pending, 5⟩] "tok" 10
      ⟨"e@x", "Eve", "Eng", .employee, 1, "tok", .pending, 5⟩
      (by simp) rfl (by decide) (by decide)
  exact ⟨h.1, h.2 ⟨"Bob", "b@x", "Sales", "employee"⟩⟩

/-- C2 evaluation: a pending, unexpired invitation for role `employee`
accepted by a freshly registered user (id 2; the inviting manager is
user 1) leaves the invitation's status `pending` — the RLS-gated update is
rejected because the new user holds only the employee role — while the
role grant itself comes from the signup trigger, not from the client's
`user_roles` insert (which is likewise rejected). The token therefore
stays usable, contrary to the claim. -/
theorem invitation_acceptance_leaves_pending :
    (handleSignUpWithInvitation [] [⟨1, .manager⟩]
        [⟨"e@x", "Eve", "Eng", .employee, 1, "tok", .pending, 1000⟩]
        1 2 ⟨"e@x", "Eve", "Eng", "employee", "tok"⟩).invitations
      = [⟨"e@x", "Eve", "Eng", .employee, 1, "tok", .pending, 1000⟩]
    ∧ (handleSignUpWithInvitation [] [⟨1, .manager⟩]
        [⟨"e@x", "Eve", "Eng", .employee, 1, "tok", .pending, 1000⟩]
        1 2 ⟨"e@x", "Eve", "Eng", "employee", "tok"⟩).user_roles
      = [⟨1, .manager⟩, ⟨2, .employee⟩]
    ∧ (handleSignUpWithInvitation [] [⟨1, .manager⟩]
        [⟨"e@x", "Eve", "Eng", .employee, 1, "tok", .pending, 1000⟩]
        1 2 ⟨"e@x", "Eve", "Eng", "employee", "tok"⟩).signUpFailed
      = false := by
  decide

/-- The code's `LPAD` of a decimal ordinal agrees with the spec's
zero-padded ordinal exactly on ordinals of at most four digits. -/
theorem lpad_toString_eq_spec (n : Nat) (h : (toString n).length ≤ 4) :
    lpad (toString n) 4 '0' = specZeroPaddedOrdinal n := by
  unfold lpad specZeroPaddedOrdinal
  by_cases h4 : 4 ≤ (toString n).length
  · rw [if_pos h4, if_pos h4, String.take_eq]
    have hlen : List.length (toString n).data ≤ 4 := h
    rw [List.take_of_length_le hlen]
  · rw [if_neg h4, if_neg h4]

/-- C8 counterexample: at sequence value 10000 the trigger assigns
employee code "EMP1000" — `LPAD` truncates the five-digit ordinal to its
first four characters — which differs from the claimed fixed prefix plus
zero-padded ordinal ("EMP10000"). -/
theorem employee_code_truncated_cex :
    employeeIdsOf
        (handle_new_user [] [] 10000 ⟨1, "u@x", ⟨none, none, none⟩⟩)
      = ["EMP1000"]
    ∧ "EMP1000" ≠ "EMP" ++ specZeroPaddedOrdinal 10000 := by
  decide

/-- C8 (amended): on insert of an identity record the trigger creates a
profile and a role grant, with name, department and role taken from the
registration metadata or the defaults 'New User' / 'General' / 'employee'
when absent (the role being a valid enum value when present), and assigns
the employee code 'EMP' followed by the sequence's next value zero-padded
to four digits — provided that value has at most four digits (beyond,
`LPAD` truncates). -/
theorem new_user_creates_profile_and_role (P : List Profile)
    (R : List UserRoleRow) (seq : Nat) (nu : NewUser)
    (hseq : (toString seq).length ≤ 4)
    (hrole : ∀ s, nu.raw_user_meta_data.role = some s →
        s = "employee" ∨ s = "manager") :
    ∃ res, handle_new_user P R seq nu = .ok res
      ∧ res.profiles = P ++
          [{ id := nu.id
             name := nu.raw_user_meta_data.name.getD "New User"
             email := nu.email
             employee_id := "EMP" ++ specZeroPaddedOrdinal seq
             department := nu.raw_user_meta_data.department.getD "General"
             role :=
               (nu.raw_user_meta_data.role.bind castUserRole).getD .employee }]
      ∧ res.user_roles = R ++
          [⟨nu.id,
            (nu.raw_user_meta_data.role.bind castAppRole).getD .employee⟩]
      ∧ res.employee_id_seq = seq + 1 := by
  cases hr : nu.raw_user_meta_data.role with
  | none =>
      have hok : handle_new_user P R seq nu = .ok
          { profiles := P ++
              [{ id := nu.id
                 name := nu.raw_user_meta_data.name.getD "New User"
                 email := nu.email
                 employee_id := "EMP" ++ lpad (toString seq) 4 '0'
                 department := nu.raw_user_meta_data.department.getD "General"
                 role := .employee }]
            user_roles := R ++ [⟨nu.id, .employee⟩]
            employee_id_seq := seq + 1 } := by
        simp [handle_new_user, hr]
      refine ⟨_, hok, ?_, ?_, ?_⟩ <;>
        simp [hr, lpad_toString_eq_spec seq hseq]
  | some s =>
      rcases hrole s hr with rfl | rfl
      · have hok : handle_new_user P R seq nu = .ok
            { profiles := P ++
                [{ id := nu.id
                   name := nu.raw_user_meta_data.name.getD "New User"
                   email := nu.email
                   employee_id := "EMP" ++ lpad (toString seq) 4 '0'
                   department :=
                     nu.raw_user_meta_data.department.getD "General"
                   role := .employee }]
              user_roles := R ++ [⟨nu.id, .employee⟩]
              employee_id_seq := seq + 1 } := by
          simp +decide [handle_new_user, hr, castUserRole, castAppRole]
        refine ⟨_, hok, ?_, ?_, ?_⟩ <;>
          simp +decide [hr, castUserRole, castAppRole,
            lpad_toString_eq_spec seq hseq]
      · have hok : handle_new_user P R seq nu = .ok
            { profiles := P ++
                [{ id := nu.id
                   name := nu.raw_user_meta_data.name.getD "New User"
                   email := nu.email
                   employee_id := "EMP" ++ lpad (toString seq) 4 '0'
                   department :=
                     nu.raw_user_meta_data.department.getD "General"
                   role := .manager }]
              user_roles := R ++ [⟨nu.id, .manager⟩]
              employee_id_seq := seq + 1 } := by
          simp +decide [handle_new_user, hr, castUserRole, castAppRole]
        refine ⟨_, hok, ?_, ?_, ?_⟩ <;>
          simp +decide [hr, castUserRole, castAppRole,
            lpad_toString_eq_spec seq hseq]

/-- Witness for the amended C8: a metadata-less signup at sequence value 7
creates the profile ('New User', 'General', employee code "EMP0007") and
an employee role grant. -/
theorem new_user_witness :
    ∃ res, handle_new_user [] [] 7 ⟨3, "n@x", ⟨none, none, none⟩⟩ = .ok res
      ∧ res.profiles
          = [{ id := 3, name := "New User", email := "n@x",
               employee_id := "EMP0007", department := "General",
               role := .employee }]
      ∧ res.user_roles = [⟨3, .employee⟩]
      ∧ res.employee_id_seq = 8 := by
  obtain ⟨res, h1, h2, h3, h4⟩ :=
    new_user_creates_profile_and_role [] [] 7 ⟨3, "n@x", ⟨none, none, none⟩⟩
      (by decide) (by intro s hs; cases hs)
  refine ⟨res, h1, ?_, ?_, h4⟩
  · rw [h2]; decide
  · rw [h3]; decide

end AttendanceApp
